/-
Verification of the document-pipeline stage handlers (OCR, extraction/validation,
persistence) against their natural-language specification.

The TypeScript sources are embedded shallowly:
  * `extractInvoiceMetadata` / `validateInvoiceMetadata` from the validation
    service, including the JavaScript regular-expression matching they rely on
    (leftmost match, greedy quantifiers, case-insensitive flags), specialised
    to the concrete patterns appearing in the source;
  * the three stage handlers `processDocumentForOCR`,
    `processDocumentForValidation` and `persistDocument` as functions on an
    explicit pipeline state (document hashes, binary payloads, stream topics,
    acknowledgements), with a ghost log of every status value an `hset` call
    writes;
  * the shared consumer-loop body (`documentId` extraction with JavaScript
    truthiness, ack-and-skip of malformed entries).
JavaScript numbers are modelled as rationals plus an explicit NaN; on every
value this development evaluates, the modelled arithmetic and the IEEE double
arithmetic of the source agree exactly.
-/
import Mathlib

namespace DocPipeline

/-- The document status enumeration of `src/types/document.ts`. -/
inductive DocumentStatus where
  | UPLOADED
  | OCR_PENDING
  | OCR_COMPLETED
  | OCR_FAILED
  | VALIDATION_PENDING
  | VALIDATED
  | VALIDATION_FAILED
  | PERSISTENCE_PENDING
  | PERSISTED
  | FAILED
deriving DecidableEq, Repr

/-- A JavaScript number: a rational value or NaN.  The amounts handled by the
pipeline are short decimal strings, on which double arithmetic is exact, so a
rational model is faithful. -/
inductive JSNum where
  | nan
  | num (q : ℚ)
deriving DecidableEq, Repr

/-- JavaScript regex `\s` restricted to the ASCII whitespace characters (the
pipeline's texts contain no Unicode whitespace). -/
def isJsWs (c : Char) : Bool :=
  c == ' ' || c == '\t' || c == '\n' || c == '\r' || c == '\x0b' || c == '\x0c'

/-- JavaScript line terminators, the characters `.` does not match. -/
def isLineTerm (c : Char) : Bool :=
  c == '\n' || c == '\r' || c == '\u2028' || c == '\u2029'

/-- `String.prototype.trim` on a character list (ASCII whitespace ends). -/
def jsTrim (cs : List Char) : List Char :=
  ((cs.dropWhile isJsWs).reverse.dropWhile isJsWs).reverse

/-- Value of a list of decimal digits. -/
def digitsToNat (cs : List Char) : Nat :=
  cs.foldl (fun n c => 10 * n + (c.toNat - '0'.toNat)) 0

/-- Models JavaScript `parseFloat` on the strings the amount regex can
produce after comma removal: optional sign, decimal digits, at most one dot;
parsing stops at the first character that cannot extend the number.  Exponent
and Infinity forms, which that regex cannot produce, are not modelled. -/
def jsParseFloat (cs : List Char) : JSNum :=
  let cs1 := cs.dropWhile isJsWs
  let signed : ℚ × List Char :=
    match cs1 with
    | '-' :: r => (-1, r)
    | '+' :: r => (1, r)
    | r => (1, r)
  let intPart := signed.2.takeWhile Char.isDigit
  let rest := signed.2.drop intPart.length
  let fracPart :=
    match rest with
    | '.' :: r => r.takeWhile Char.isDigit
    | _ => []
  if intPart.isEmpty && fracPart.isEmpty then JSNum.nan
  else JSNum.num (signed.1 *
    ((digitsToNat intPart : ℚ) + (digitsToNat fracPart : ℚ) / 10 ^ fracPart.length))

/-- Match a literal case-insensitively at the head of `cs` (the literal is
given in lower case); returns the remainder on success. -/
def stripLitCI : List Char → List Char → Option (List Char)
  | [], cs => some cs
  | _ :: _, [] => none
  | l :: ls, c :: cs => if c.toLower == l then stripLitCI ls cs else none

/-- Match a literal case-sensitively at the head of `cs`. -/
def stripLitCS : List Char → List Char → Option (List Char)
  | [], cs => some cs
  | _ :: _, [] => none
  | l :: ls, c :: cs => if c == l then stripLitCS ls cs else none

/-- Leftmost-match search: try the position matcher at every suffix, left to
right, as a JavaScript regex engine does. -/
def searchFirst (tryAt : List Char → Option α) : List Char → Option α
  | [] => tryAt []
  | c :: rest =>
    match tryAt (c :: rest) with
    | some r => some r
    | none => searchFirst tryAt rest

/-- `/Invoice Number:\s*(\S+)/i` at one position: the literal, then maximal
whitespace, then a maximal non-empty run of non-whitespace characters. -/
def invNumAt (cs : List Char) : Option (List Char) :=
  match stripLitCI "invoice number:".data cs with
  | none => none
  | some rest =>
    let tok := (rest.dropWhile isJsWs).takeWhile (fun c => !(isJsWs c))
    if tok.isEmpty then none else some tok

/-- `/Customer:\s*(.+)/i` at one position.  `\s*` is greedy; when nothing
non-whitespace follows the whitespace run the engine backtracks into the run,
and `.` then captures the last non-line-terminator whitespace character. -/
def customerAt (cs : List Char) : Option (List Char) :=
  match stripLitCI "customer:".data cs with
  | none => none
  | some rest =>
    let ws := rest.takeWhile isJsWs
    let afterWs := rest.drop ws.length
    match afterWs with
    | _ :: _ => some (afterWs.takeWhile (fun c => !(isLineTerm c)))
    | [] =>
      match ws.reverse.find? (fun c => !(isLineTerm c)) with
      | some c => some [c]
      | none => none

/-- Greedy `(?:[.,]\d{3})*`: consume separator-plus-three-digit groups as long
as possible; returns (consumed, rest). -/
def thousandsGroups : List Char → List Char × List Char
  | s :: a :: b :: c :: rest =>
    if (s == '.' || s == ',') && a.isDigit && b.isDigit && c.isDigit then
      let more := thousandsGroups rest
      (s :: a :: b :: c :: more.1, more.2)
    else ([], s :: a :: b :: c :: rest)
  | other => ([], other)

/-- Greedy `(?:[.,]\d{2})?`: a separator plus exactly two digits, if present. -/
def centsOpt : List Char → List Char × List Char
  | s :: a :: b :: rest =>
    if (s == '.' || s == ',') && a.isDigit && b.isDigit then ([s, a, b], rest)
    else ([], s :: a :: b :: rest)
  | other => ([], other)

/-- `/:\s*(\d{1,3}(?:[.,]\d{3})*(?:[.,]\d{2})?)\s*([A-Z]{3})?/i` — the tail of
the total-amount regex after the `Total`/`Total Amount` literal.  All
quantifiers are greedy and nothing after them can fail, so the greedy parse is
the regex's parse.  Returns (amount capture, optional currency capture). -/
def totalTail (cs : List Char) : Option (List Char × Option (List Char)) :=
  match cs with
  | ':' :: rest =>
    let afterWs := rest.dropWhile isJsWs
    let d1 := (afterWs.takeWhile Char.isDigit).take 3
    if d1.isEmpty then none
    else
      let r1 := afterWs.drop d1.length
      let g := thousandsGroups r1
      let cents := centsOpt g.2
      let amount := d1 ++ g.1 ++ cents.1
      let r3 := cents.2.dropWhile isJsWs
      let cur : Option (List Char) :=
        match r3 with
        | x :: y :: z :: _ =>
          if x.isAlpha && y.isAlpha && z.isAlpha then some [x, y, z] else none
        | _ => none
      some (amount, cur)
  | _ => none

/-- `/Total(?:\s+Amount)?:\s*(...)\s*([A-Z]{3})?/i` at one position: after the
`Total` literal the optional `\s+Amount` branch is tried first (greedy);
since `Amount` starts with a non-whitespace character only the maximal
whitespace run can precede it. -/
def totalAt (cs : List Char) : Option (List Char × Option (List Char)) :=
  match stripLitCI "total".data cs with
  | none => none
  | some rest =>
    let ws := rest.takeWhile isJsWs
    let branchA : Option (List Char × Option (List Char)) :=
      if ws.isEmpty then none
      else
        match stripLitCI "amount".data (rest.drop ws.length) with
        | some r => totalTail r
        | none => none
    match branchA with
    | some res => some res
    | none => totalTail rest

/-- `/Currency:\s*([A-Z]{3})/i` at one position. -/
def currencyAt (cs : List Char) : Option (List Char) :=
  match stripLitCI "currency:".data cs with
  | none => none
  | some rest =>
    match rest.dropWhile isJsWs with
    | x :: y :: z :: _ =>
      if x.isAlpha && y.isAlpha && z.isAlpha then some [x, y, z] else none
    | _ => none

/-- `\d{4}-\d{2}-\d{2}` at the head of a list (unanchored on the right, as in
the extraction regex). -/
def dateDigitsAt : List Char → Option (List Char)
  | a :: b :: c :: d :: h1 :: e :: f :: h2 :: g :: k :: _ =>
    if a.isDigit && b.isDigit && c.isDigit && d.isDigit && h1 == '-' &&
       e.isDigit && f.isDigit && h2 == '-' && g.isDigit && k.isDigit then
      some [a, b, c, d, h1, e, f, h2, g, k]
    else none
  | _ => none

/-- `/Date:\s*(\d{4}-\d{2}-\d{2})/` at one position (case-sensitive: the
source regex has no `i` flag). -/
def dateAt (cs : List Char) : Option (List Char) :=
  match stripLitCS "Date:".data cs with
  | none => none
  | some rest => dateDigitsAt (rest.dropWhile isJsWs)

/-- `/^\d{4}-\d{2}-\d{2}$/.test` from `validateInvoiceMetadata`. -/
def dateFormatTest (s : String) : Bool :=
  match s.data with
  | [a, b, c, d, h1, e, f, h2, g, k] =>
    a.isDigit && b.isDigit && c.isDigit && d.isDigit && h1 == '-' &&
    e.isDigit && f.isDigit && h2 == '-' && g.isDigit && k.isDigit
  | _ => false

/-- `Partial<InvoiceMetadata>` of `src/types/document.ts`: every field may be
absent, as the extraction can leave any of them unset. -/
structure InvoiceMetadata where
  invoiceNumber : Option String
  customerName : Option String
  totalAmount : Option JSNum
  currency : Option String
  issueDate : Option String
deriving DecidableEq, Repr

/-- `extractInvoiceMetadata` of the validation service: the five regex
extraction rules, comma removal and `parseFloat` on the amount,
`toUpperCase` on the currency, and the separate `Currency:` line used only
when the total line carried no currency code. -/
def extractInvoiceMetadata (ocrText : String) : InvoiceMetadata :=
  let cs := ocrText.data
  let invoiceNumber := (searchFirst invNumAt cs).map (fun t => String.mk (jsTrim t))
  let customerName := (searchFirst customerAt cs).map (fun t => String.mk (jsTrim t))
  let totalRes := searchFirst totalAt cs
  let totalAmount := totalRes.map (fun p => jsParseFloat (p.1.filter (fun c => c != ',')))
  let currencyFromTotal : Option String :=
    totalRes.bind (fun p => p.2.map (fun t => String.mk (t.map Char.toUpper)))
  let currency :=
    match currencyFromTotal with
    | some c => some c
    | none => (searchFirst currencyAt cs).map (fun t => String.mk (t.map Char.toUpper))
  let issueDate := (searchFirst dateAt cs).map String.mk
  { invoiceNumber, customerName, totalAmount, currency, issueDate }

/-- JavaScript falsiness of an optional string: `undefined` or the empty
string. -/
def jsFalsyOptStr : Option String → Bool
  | none => true
  | some s => s == ""

/-- The total-amount check of `validateInvoiceMetadata`:
`totalAmount === undefined || isNaN(totalAmount) || totalAmount <= 0`. -/
def totalAmountBad : Option JSNum → Bool
  | none => true
  | some JSNum.nan => true
  | some (JSNum.num q) => q ≤ 0

/-- The issue-date check of `validateInvoiceMetadata`:
`!issueDate || !/^\d{4}-\d{2}-\d{2}$/.test(issueDate)`. -/
def issueDateBad : Option String → Bool
  | none => true
  | some s => s == "" || !(dateFormatTest s)

/-- `validateInvoiceMetadata` of the validation service: one error message per
failed check, in source order. -/
def validateInvoiceMetadata (metadata : InvoiceMetadata) : List String :=
  let errors : List String := []
  let errors := if jsFalsyOptStr metadata.invoiceNumber then
    errors ++ ["Invoice Number is missing or empty."] else errors
  let errors := if jsFalsyOptStr metadata.customerName then
    errors ++ ["Customer Name is missing or empty."] else errors
  let errors := if totalAmountBad metadata.totalAmount then
    errors ++ ["Total Amount is missing, invalid, or zero/negative."] else errors
  let errors := if jsFalsyOptStr metadata.currency then
    errors ++ ["Currency is missing or empty."] else errors
  let errors := if issueDateBad metadata.issueDate then
    errors ++ ["Issue Date is missing or invalid (expected YYYY-MM-DD)."] else errors
  errors

/-- The OCR result structure of `src/types/document.ts`. -/
structure OCRResult where
  text : String
  confidence : ℚ
  language : String
deriving DecidableEq, Repr

/-- The Redis hash `document:{id}` in its typed form: the fields the handlers
read and write.  Optional fields are absent until some stage stores them. -/
structure StoredDoc where
  id : String
  filename : String
  status : DocumentStatus
  ocrResult : Option OCRResult
  extractedMetadata : Option InvoiceMetadata
  validationErrors : Option (List String)
  createdAt : String
  updatedAt : String
deriving DecidableEq, Repr

/-- The observable Redis state the handlers touch: document hashes, binary
payloads (`document_content:{id}`), stream topics (each a list of entries,
an entry being the flat field/value pairs given to `xadd`), the `xack` calls
made (topic, group, entry id), and a ghost log of every status value an
`hset` wrote, as (document id, status before the write, status written). -/
structure PipelineState where
  docs : String → Option StoredDoc
  contents : String → Option String
  streams : String → List (List (String × String))
  acks : List (String × String × String)
  statusLog : List (String × DocumentStatus × DocumentStatus)

/-- `xadd(topic, '*', ...fields)`: append an entry to a topic.  Appending to a
topic that has no entries yet creates it, as in Redis. -/
def xadd (st : PipelineState) (topic : String) (entry : List (String × String)) :
    PipelineState :=
  { st with streams := Function.update st.streams topic (st.streams topic ++ [entry]) }

/-- `xack(topic, group, entryId)`: record the acknowledgement. -/
def xack (st : PipelineState) (topic group entryId : String) : PipelineState :=
  { st with acks := st.acks ++ [(topic, group, entryId)] }

/-- An `hset` on `document:{id}` rewriting fields of the hash.  Every `hset`
the three handlers perform writes the `status` field, so the written status is
logged unconditionally.  The handlers call this only after a successful fetch
of the hash, so the absent case leaves the state unchanged. -/
def hsetDoc (st : PipelineState) (documentId : String) (f : StoredDoc → StoredDoc) :
    PipelineState :=
  match st.docs documentId with
  | none => st
  | some d =>
    { st with
      docs := Function.update st.docs documentId (some (f d)),
      statusLog := st.statusLog ++ [(documentId, d.status, (f d).status)] }

/-- `processDocumentForOCR` of the OCR service.  `fetchRaises` models the
initial `hgetall` call itself raising (store unreachable), in which case the
catch block sees `document === null` and does nothing; `ocr` stands for the
value the external `simulateOCR` call resolves with; `now` is the timestamp
`new Date().toISOString()` yields during this invocation. -/
def processDocumentForOCR (fetchRaises : Bool) (ocr : OCRResult) (now : String)
    (documentId : String) (st : PipelineState) : PipelineState :=
  if fetchRaises then st
  else
    match st.docs documentId with
    | none => st
    | some _ =>
      match st.contents documentId with
      | none =>
        let st1 := hsetDoc st documentId
          (fun d => { d with status := DocumentStatus.OCR_FAILED, updatedAt := now })
        xadd st1 "dlq_ocr_failed"
          [("documentId", documentId),
           ("error", "Original content not found for document: " ++ documentId)]
      | some _ =>
        let st1 := hsetDoc st documentId
          (fun d => { d with status := DocumentStatus.OCR_PENDING, updatedAt := now })
        let st2 := hsetDoc st1 documentId
          (fun d => { d with ocrResult := some ocr,
                             status := DocumentStatus.OCR_COMPLETED, updatedAt := now })
        xadd st2 "ocr_result_queue"
          [("documentId", documentId), ("status", "OCR_COMPLETED")]

/-- The catch block of `processDocumentForValidation` when the document object
was already reconstructed: mark the record `VALIDATION_FAILED` and publish the
thrown message to the validation dead-letter stream. -/
def validationCatch (st : PipelineState) (documentId now : String) : PipelineState :=
  let st1 := hsetDoc st documentId
    (fun d => { d with status := DocumentStatus.VALIDATION_FAILED, updatedAt := now })
  xadd st1 "dlq_validation_failed"
    [("documentId", documentId),
     ("error", "OCR result missing for document " ++ documentId ++ ". Cannot validate.")]

/-- `processDocumentForValidation` of the validation service.  `fetchRaises`
models the initial `hgetall` call itself raising (catch block with
`document === null`); `now` is the invocation's timestamp. -/
def processDocumentForValidation (fetchRaises : Bool) (now : String)
    (documentId : String) (st : PipelineState) : PipelineState :=
  if fetchRaises then st
  else
    match st.docs documentId with
    | none => st
    | some doc =>
      match doc.ocrResult with
      | none => validationCatch st documentId now
      | some ocr =>
        if ocr.text = "" then validationCatch st documentId now
        else
          let st1 := hsetDoc st documentId
            (fun d => { d with status := DocumentStatus.VALIDATION_PENDING,
                               updatedAt := now })
          let extracted := extractInvoiceMetadata ocr.text
          let validationErrors := validateInvoiceMetadata extracted
          if validationErrors.length > 0 then
            let st2 := hsetDoc st1 documentId
              (fun d => { d with extractedMetadata := some extracted,
                                 validationErrors := some validationErrors,
                                 status := DocumentStatus.VALIDATION_FAILED,
                                 updatedAt := now })
            xadd st2 "validation_queue"
              [("documentId", documentId), ("status", "VALIDATION_FAILED")]
          else
            let st2 := hsetDoc st1 documentId
              (fun d => { d with extractedMetadata := some extracted,
                                 status := DocumentStatus.VALIDATED,
                                 updatedAt := now })
            xadd st2 "validation_queue"
              [("documentId", documentId), ("status", "VALIDATED")]

/-- `persistDocument` of the persistence service.  `fetchRaises` models the
initial `hgetall` call itself raising (catch block with `document === null`);
`now` is the invocation's timestamp. -/
def persistDocument (fetchRaises : Bool) (now : String)
    (documentId : String) (st : PipelineState) : PipelineState :=
  if fetchRaises then st
  else
    match st.docs documentId with
    | none => st
    | some doc =>
      if doc.status = DocumentStatus.VALIDATED then
        let st1 := hsetDoc st documentId
          (fun d => { d with status := DocumentStatus.PERSISTED, updatedAt := now })
        { st1 with contents := Function.update st1.contents documentId none }
      else if doc.status = DocumentStatus.VALIDATION_FAILED then
        hsetDoc st documentId
          (fun d => { d with status := DocumentStatus.FAILED, updatedAt := now })
      else st

/-- The `documentId` extraction shared by the three consumer loops:
`data.indexOf('documentId')` and, when found, the element after it; the result
then goes through a JavaScript truthiness test, so a missing or empty value is
treated like an absent field. -/
def valueAfterDocumentId : List String → Option String
  | [] => none
  | x :: rest => if x = "documentId" then rest.head? else valueAfterDocumentId rest

/-- `documentId` as the loop body sees it after the `if (documentId)` test. -/
def extractDocumentId (data : List String) : Option String :=
  match valueAfterDocumentId data with
  | none => none
  | some v => if v = "" then none else some v

/-- One iteration body of a stage-processor loop, generic in the stage handler
(the three loops are textually identical here): extract `documentId`; if
present run the handler then `xack`; otherwise `xack` without running it. -/
def processMessage (handler : String → PipelineState → PipelineState)
    (topic group entryId : String) (data : List String) (st : PipelineState) :
    PipelineState :=
  match extractDocumentId data with
  | some documentId => xack (handler documentId st) topic group entryId
  | none => xack st topic group entryId

/-- The field names of a flat field/value array (its even-position elements):
`xadd(topic, '*', f1, v1, f2, v2, ...)` stores an entry as such pairs, so an
entry has a `documentId` field exactly when `documentId` appears at an even
position.  The loop's `indexOf` lookup does not respect this pairing. -/
def fieldNames : List String → List String
  | [] => []
  | [f] => [f]
  | f :: _ :: rest => f :: fieldNames rest

/-- Modelled from the spec: the transition graph of §4.3
(`UPLOADED → OCR_PENDING → OCR_COMPLETED | OCR_FAILED`;
`OCR_COMPLETED → VALIDATION_PENDING → VALIDATED | VALIDATION_FAILED`;
`VALIDATED → PERSISTED`; `VALIDATION_FAILED → FAILED`), used to judge the
status writes the code performs. -/
def specEdge : DocumentStatus → DocumentStatus → Bool
  | DocumentStatus.UPLOADED, DocumentStatus.OCR_PENDING => true
  | DocumentStatus.OCR_PENDING, DocumentStatus.OCR_COMPLETED => true
  | DocumentStatus.OCR_PENDING, DocumentStatus.OCR_FAILED => true
  | DocumentStatus.OCR_COMPLETED, DocumentStatus.VALIDATION_PENDING => true
  | DocumentStatus.VALIDATION_PENDING, DocumentStatus.VALIDATED => true
  | DocumentStatus.VALIDATION_PENDING, DocumentStatus.VALIDATION_FAILED => true
  | DocumentStatus.VALIDATED, DocumentStatus.PERSISTED => true
  | DocumentStatus.VALIDATION_FAILED, DocumentStatus.FAILED => true
  | _, _ => false

/-! Concrete fixtures used by witnesses and counterexamples. -/

/-- A recognized text containing exactly the five lines named by the spec's
testable property. -/
def specInvoiceText : String :=
  "Invoice Number: INV-2025-001\nCustomer: Acme Corp\nTotal: 1234.56 USD\nCurrency: USD\nDate: 2025-07-08\n"

/-- A document record fixture with the given status and OCR result. -/
def mkDoc (status : DocumentStatus) (ocr : Option OCRResult) : StoredDoc :=
  { id := "d1", filename := "invoice.pdf", status := status, ocrResult := ocr,
    extractedMetadata := none, validationErrors := none,
    createdAt := "t0", updatedAt := "t0" }

/-- An OCR result fixture carrying the spec's invoice text. -/
def sampleOcr : OCRResult :=
  { text := specInvoiceText, confidence := 98 / 100, language := "en" }

/-- A pipeline state holding one document record and payload under id `d1`,
with empty streams and logs. -/
def baseState (d : Option StoredDoc) (payload : Option String) : PipelineState :=
  { docs := fun i => if i = "d1" then d else none,
    contents := fun i => if i = "d1" then payload else none,
    streams := fun _ => [], acks := [], statusLog := [] }

/-- A pipeline state holding one `VALIDATED` record stored under the document
id `status`, used to observe a handler invocation on a mistakenly extracted
id. -/
def c8State : PipelineState :=
  { docs := fun i =>
      if i = "status" then some (mkDoc DocumentStatus.VALIDATED none) else none,
    contents := fun _ => none,
    streams := fun _ => [], acks := [], statusLog := [] }

/-! The claims. -/

/-- C1: on a recognized text containing the five spec lines the code extracts
invoiceNumber, customerName, currency and issueDate as the claim states and
validation returns no errors, but the extracted totalAmount is 123, not
1234.56: the amount regex `\d{1,3}(?:[.,]\d{3})*(?:[.,]\d{2})?` only accepts
thousands-separated digit groups after the first three digits, so on
`1234.56` the capture stops at `123`.  This contradicts the claim (and the
spec's own testable property) at the code's own fixture text, while the
code's mock OCR output and the spec both intend the total 1234.56. -/
theorem C1_extraction_on_spec_text :
    extractInvoiceMetadata specInvoiceText =
      { invoiceNumber := some "INV-2025-001",
        customerName := some "Acme Corp",
        totalAmount := some (JSNum.num 123),
        currency := some "USD",
        issueDate := some "2025-07-08" } ∧
    validateInvoiceMetadata (extractInvoiceMetadata specInvoiceText) = [] ∧
    (extractInvoiceMetadata specInvoiceText).totalAmount ≠
      some (JSNum.num (123456 / 100)) := by
  have hp : jsParseFloat ['1', '2', '3'] = JSNum.num 123 := by
    simp [jsParseFloat, digitsToNat, isJsWs, List.takeWhile, List.dropWhile]
  have h1 : extractInvoiceMetadata specInvoiceText =
      { invoiceNumber := some "INV-2025-001",
        customerName := some "Acme Corp",
        totalAmount := some (jsParseFloat ['1', '2', '3']),
        currency := some "USD",
        issueDate := some "2025-07-08" } := by rfl
  rw [h1, hp]
  refine ⟨rfl, by decide, ?_⟩
  simp only [ne_eq, Option.some.injEq, JSNum.num.injEq]
  norm_num

/-- The first check of `validateInvoiceMetadata` passes exactly on a present,
non-empty string. -/
theorem jsFalsyOptStr_eq_false_iff (o : Option String) :
    jsFalsyOptStr o = false ↔ ∃ s, o = some s ∧ s ≠ "" := by
  cases o with
  | none => simp [jsFalsyOptStr]
  | some s => simp [jsFalsyOptStr]

/-- The amount check of `validateInvoiceMetadata` passes exactly on a defined,
non-NaN, positive number. -/
theorem totalAmountBad_eq_false_iff (o : Option JSNum) :
    totalAmountBad o = false ↔ ∃ q, o = some (JSNum.num q) ∧ 0 < q := by
  cases o with
  | none => simp [totalAmountBad]
  | some n =>
    cases n with
    | nan => simp [totalAmountBad]
    | num q => simp [totalAmountBad, not_le]

/-- The date check of `validateInvoiceMetadata` passes exactly on a present
string matching the 4-2-2 digit pattern. -/
theorem issueDateBad_eq_false_iff (o : Option String) :
    issueDateBad o = false ↔ ∃ s, o = some s ∧ dateFormatTest s = true := by
  cases o with
  | none => simp [issueDateBad]
  | some s =>
    constructor
    · intro h
      refine ⟨s, rfl, ?_⟩
      cases hts : dateFormatTest s with
      | true => rfl
      | false => simp [issueDateBad, hts] at h
    · rintro ⟨t, ht, htest⟩
      obtain rfl : s = t := by injection ht
      have hne : (s == "") = false := by
        cases hse : s == "" with
        | false => rfl
        | true =>
          have hs : s = "" := by simpa using hse
          subst hs
          exact absurd htest (by decide)
      simp [issueDateBad, hne, htest]

/-- C7: the validation returns no error exactly when the five fields are
present and non-empty, the amount is a defined positive number, and the issue
date matches the 4-2-2 digit pattern; and it returns one message per failed
check. -/
theorem C7_validate_empty_iff_all_checks (m : InvoiceMetadata) :
    (validateInvoiceMetadata m = [] ↔
      (∃ s, m.invoiceNumber = some s ∧ s ≠ "") ∧
      (∃ s, m.customerName = some s ∧ s ≠ "") ∧
      (∃ q, m.totalAmount = some (JSNum.num q) ∧ 0 < q) ∧
      (∃ s, m.currency = some s ∧ s ≠ "") ∧
      (∃ s, m.issueDate = some s ∧ dateFormatTest s = true)) ∧
    (validateInvoiceMetadata m).length =
      ((if jsFalsyOptStr m.invoiceNumber then 1 else 0) +
       (if jsFalsyOptStr m.customerName then 1 else 0) +
       (if totalAmountBad m.totalAmount then 1 else 0) +
       (if jsFalsyOptStr m.currency then 1 else 0) +
       (if issueDateBad m.issueDate then 1 else 0)) := by
  obtain ⟨inv, cus, tot, cur, dat⟩ := m
  rw [← jsFalsyOptStr_eq_false_iff, ← jsFalsyOptStr_eq_false_iff,
    ← totalAmountBad_eq_false_iff, ← jsFalsyOptStr_eq_false_iff,
    ← issueDateBad_eq_false_iff]
  rcases h1 : jsFalsyOptStr inv <;> rcases h2 : jsFalsyOptStr cus <;>
    rcases h3 : totalAmountBad tot <;> rcases h4 : jsFalsyOptStr cur <;>
    rcases h5 : issueDateBad dat <;>
    simp [validateInvoiceMetadata, h1, h2, h3, h4, h5]

/-- C8 amended: a queue entry whose flat field/value array contains no element
equal to `documentId` is acknowledged and skipped without the stage handler
running: the loop body equals a bare `xack`, whatever the handler is.  Because
the loop's lookup is positional (`indexOf` over the flat array), this is
strictly weaker than the entry having no `documentId` field: an entry whose
mere value equals `documentId` is treated as carrying one (see the
counterexample). -/
theorem C8_malformed_entry_acked_skipped
    (handler : String → PipelineState → PipelineState)
    (topic group entryId : String) (data : List String) (st : PipelineState)
    (h : "documentId" ∉ data) :
    processMessage handler topic group entryId data st = xack st topic group entryId := by
  have hv : valueAfterDocumentId data = none := by
    induction data with
    | nil => rfl
    | cons x rest ih =>
      simp only [List.mem_cons, not_or] at h
      simpa [valueAfterDocumentId, Ne.symm h.1] using ih h.2
  simp [processMessage, extractDocumentId, hv]

/-- Witness for C8 at a concrete malformed entry. -/
theorem C8_malformed_entry_acked_skipped_witness :
    processMessage (fun _ s => s) "validation_queue" "persistence_processor_group"
      "1-0" ["status", "VALIDATED"] (baseState none none) =
      xack (baseState none none) "validation_queue" "persistence_processor_group" "1-0" :=
  C8_malformed_entry_acked_skipped (fun _ s => s) "validation_queue"
    "persistence_processor_group" "1-0" ["status", "VALIDATED"]
    (baseState none none) (by decide)

/-- C8 counterexample: the entry with flat array
`["note", "documentId", "status", "X"]` has no `documentId` field (its fields
are `note` and `status`), yet `indexOf` finds the value `"documentId"` at an
odd position and the loop invokes the stage handler on the following element
`"status"`: with a `VALIDATED` record stored under that id, the persistence
handler runs and finalizes it as `PERSISTED`, so the entry is not skipped. -/
theorem C8_counterexample :
    "documentId" ∉ fieldNames ["note", "documentId", "status", "X"] ∧
    extractDocumentId ["note", "documentId", "status", "X"] = some "status" ∧
    ((processMessage (persistDocument false "t1") "validation_queue"
        "persistence_processor_group" "1-0" ["note", "documentId", "status", "X"]
        c8State).docs "status").map StoredDoc.status =
      some DocumentStatus.PERSISTED := by
  decide

/-- C9: when the initial fetch of the record raises, every handler returns
with the pipeline state untouched: no status write, no dead-letter entry. -/
theorem C9_fetch_raise_is_silent (st : PipelineState) (documentId now : String)
    (ocr : OCRResult) :
    processDocumentForOCR true ocr now documentId st = st ∧
    processDocumentForValidation true now documentId st = st ∧
    persistDocument true now documentId st = st :=
  ⟨rfl, rfl, rfl⟩

/-- C2 counterexample: the OCR handler invoked on a record whose status is
`PERSISTED` (not the expected predecessor `UPLOADED`) but whose payload is
present does not refuse: it transforms the record, writes `OCR_COMPLETED`,
and emits to the downstream success topic. -/
theorem C2_counterexample :
    ((processDocumentForOCR false sampleOcr "t1" "d1"
        (baseState (some (mkDoc DocumentStatus.PERSISTED none)) (some "bytes"))).docs
          "d1").map StoredDoc.status = some DocumentStatus.OCR_COMPLETED ∧
    (processDocumentForOCR false sampleOcr "t1" "d1"
        (baseState (some (mkDoc DocumentStatus.PERSISTED none)) (some "bytes"))).streams
      "ocr_result_queue" = [[("documentId", "d1"), ("status", "OCR_COMPLETED")]] := by
  decide

/-- C2 amended: the handlers enforce only the required-upstream-field
precondition, not the predecessor-status one.  When the required field is
missing (OCR stage: binary payload; Validation stage: recognition result),
the handler writes only the stage's terminal failure status and emits only to
the stage's dead-letter topic, nothing to its downstream success topic. -/
theorem C2_amended_upstream_field_precondition (st : PipelineState)
    (documentId now : String) (ocr : OCRResult) (d : StoredDoc)
    (hdoc : st.docs documentId = some d) :
    (st.contents documentId = none →
      ((processDocumentForOCR false ocr now documentId st).docs documentId).map
          StoredDoc.status = some DocumentStatus.OCR_FAILED ∧
      (processDocumentForOCR false ocr now documentId st).streams "ocr_result_queue" =
        st.streams "ocr_result_queue" ∧
      (processDocumentForOCR false ocr now documentId st).statusLog =
        st.statusLog ++ [(documentId, d.status, DocumentStatus.OCR_FAILED)] ∧
      (processDocumentForOCR false ocr now documentId st).streams "dlq_ocr_failed" =
        st.streams "dlq_ocr_failed" ++
          [[("documentId", documentId),
            ("error", "Original content not found for document: " ++ documentId)]]) ∧
    (d.ocrResult = none →
      ((processDocumentForValidation false now documentId st).docs documentId).map
          StoredDoc.status = some DocumentStatus.VALIDATION_FAILED ∧
      (processDocumentForValidation false now documentId st).streams "validation_queue" =
        st.streams "validation_queue" ∧
      (processDocumentForValidation false now documentId st).statusLog =
        st.statusLog ++ [(documentId, d.status, DocumentStatus.VALIDATION_FAILED)] ∧
      (processDocumentForValidation false now documentId st).streams
          "dlq_validation_failed" =
        st.streams "dlq_validation_failed" ++
          [[("documentId", documentId),
            ("error", "OCR result missing for document " ++ documentId ++
              ". Cannot validate.")]]) := by
  constructor
  · intro hc
    simp [processDocumentForOCR, hdoc, hc, hsetDoc, xadd, Function.update_same,
      Function.update_noteq]
  · intro ho
    simp [processDocumentForValidation, validationCatch, hdoc, ho, hsetDoc, xadd,
      Function.update_same, Function.update_noteq]

/-- Witness for C2 amended: the OCR stage refusal at a concrete record with a
missing payload. -/
theorem C2_amended_upstream_field_precondition_witness :
    ((processDocumentForOCR false sampleOcr "t1" "d1"
        (baseState (some (mkDoc DocumentStatus.UPLOADED none)) none)).docs "d1").map
        StoredDoc.status = some DocumentStatus.OCR_FAILED ∧
    (processDocumentForOCR false sampleOcr "t1" "d1"
        (baseState (some (mkDoc DocumentStatus.UPLOADED none)) none)).streams
        "ocr_result_queue" =
      (baseState (some (mkDoc DocumentStatus.UPLOADED none)) none).streams
        "ocr_result_queue" ∧
    (processDocumentForOCR false sampleOcr "t1" "d1"
        (baseState (some (mkDoc DocumentStatus.UPLOADED none)) none)).statusLog =
      (baseState (some (mkDoc DocumentStatus.UPLOADED none)) none).statusLog ++
        [("d1", (mkDoc DocumentStatus.UPLOADED none).status, DocumentStatus.OCR_FAILED)] ∧
    (processDocumentForOCR false sampleOcr "t1" "d1"
        (baseState (some (mkDoc DocumentStatus.UPLOADED none)) none)).streams
        "dlq_ocr_failed" =
      (baseState (some (mkDoc DocumentStatus.UPLOADED none)) none).streams
        "dlq_ocr_failed" ++
        [[("documentId", "d1"),
          ("error", "Original content not found for document: " ++ "d1")]] :=
  (C2_amended_upstream_field_precondition
    (baseState (some (mkDoc DocumentStatus.UPLOADED none)) none) "d1" "t1" sampleOcr
    (mkDoc DocumentStatus.UPLOADED none) rfl).1 rfl

/-- C3 counterexample: the OCR handler on an `UPLOADED` record with a missing
payload writes the status transition `UPLOADED → OCR_FAILED`, which is not an
edge of the spec's transition graph (the graph reaches `OCR_FAILED` only from
`OCR_PENDING`). -/
theorem C3_counterexample :
    (processDocumentForOCR false sampleOcr "t1" "d1"
        (baseState (some (mkDoc DocumentStatus.UPLOADED none)) none)).statusLog =
      [("d1", DocumentStatus.UPLOADED, DocumentStatus.OCR_FAILED)] ∧
    specEdge DocumentStatus.UPLOADED DocumentStatus.OCR_FAILED = false := by
  decide

/-- C3 amended: on the success path from the expected predecessor status every
status write is an edge of the spec's transition graph; the error paths
instead write the stage's terminal failure status directly from the current
status, skipping the `_PENDING` substate, and no handler guards on the current
status, so writes outside the graph occur (see the counterexample). -/
theorem C3_amended_success_path_writes_graph_edges :
    (∀ st documentId d b ocr now, st.docs documentId = some d →
      d.status = DocumentStatus.UPLOADED → st.contents documentId = some b →
      (processDocumentForOCR false ocr now documentId st).statusLog =
        st.statusLog ++
          [(documentId, DocumentStatus.UPLOADED, DocumentStatus.OCR_PENDING),
           (documentId, DocumentStatus.OCR_PENDING, DocumentStatus.OCR_COMPLETED)] ∧
      specEdge DocumentStatus.UPLOADED DocumentStatus.OCR_PENDING = true ∧
      specEdge DocumentStatus.OCR_PENDING DocumentStatus.OCR_COMPLETED = true) ∧
    (∀ st documentId d ocr now, st.docs documentId = some d →
      d.status = DocumentStatus.OCR_COMPLETED → d.ocrResult = some ocr →
      ocr.text ≠ "" →
      ∃ s2, (processDocumentForValidation false now documentId st).statusLog =
          st.statusLog ++
            [(documentId, DocumentStatus.OCR_COMPLETED, DocumentStatus.VALIDATION_PENDING),
             (documentId, DocumentStatus.VALIDATION_PENDING, s2)] ∧
        specEdge DocumentStatus.OCR_COMPLETED DocumentStatus.VALIDATION_PENDING = true ∧
        specEdge DocumentStatus.VALIDATION_PENDING s2 = true) ∧
    (∀ st documentId d now, st.docs documentId = some d →
      (d.status = DocumentStatus.VALIDATED →
        (persistDocument false now documentId st).statusLog =
          st.statusLog ++
            [(documentId, DocumentStatus.VALIDATED, DocumentStatus.PERSISTED)] ∧
        specEdge DocumentStatus.VALIDATED DocumentStatus.PERSISTED = true) ∧
      (d.status = DocumentStatus.VALIDATION_FAILED →
        (persistDocument false now documentId st).statusLog =
          st.statusLog ++
            [(documentId, DocumentStatus.VALIDATION_FAILED, DocumentStatus.FAILED)] ∧
        specEdge DocumentStatus.VALIDATION_FAILED DocumentStatus.FAILED = true)) := by
  refine ⟨?_, ?_, ?_⟩
  · intro st documentId d b ocr now hdoc hstat hc
    simp [processDocumentForOCR, hdoc, hc, hsetDoc, xadd, Function.update_same, hstat,
      specEdge]
  · intro st documentId d ocr now hdoc hstat ho ht
    by_cases herr :
        (validateInvoiceMetadata (extractInvoiceMetadata ocr.text)).length > 0
    · refine ⟨DocumentStatus.VALIDATION_FAILED, ?_⟩
      simp [processDocumentForValidation, hdoc, ho, ht, herr, hsetDoc, xadd,
        Function.update_same, hstat, specEdge]
    · refine ⟨DocumentStatus.VALIDATED, ?_⟩
      simp [processDocumentForValidation, hdoc, ho, ht, herr, hsetDoc, xadd,
        Function.update_same, hstat, specEdge]
  · intro st documentId d now hdoc
    constructor
    · intro hstat
      simp [persistDocument, hdoc, hstat, hsetDoc, xadd, Function.update_same, specEdge]
    · intro hstat
      simp [persistDocument, hdoc, hstat, hsetDoc, xadd, Function.update_same, specEdge]

/-- Witness for C3 amended: the persistence stage's `VALIDATED → PERSISTED`
write at a concrete record. -/
theorem C3_amended_success_path_writes_graph_edges_witness :
    (persistDocument false "t1" "d1"
        (baseState (some (mkDoc DocumentStatus.VALIDATED none)) none)).statusLog =
      (baseState (some (mkDoc DocumentStatus.VALIDATED none)) none).statusLog ++
        [("d1", DocumentStatus.VALIDATED, DocumentStatus.PERSISTED)] ∧
    specEdge DocumentStatus.VALIDATED DocumentStatus.PERSISTED = true :=
  (C3_amended_success_path_writes_graph_edges.2.2
    (baseState (some (mkDoc DocumentStatus.VALIDATED none)) none) "d1"
    (mkDoc DocumentStatus.VALIDATED none) "t1" rfl).1 rfl

/-- C4 counterexample: with the record present but its binary payload absent,
the OCR handler does not log-and-return: it writes a dead-letter entry (and
the terminal status `OCR_FAILED`), so the claim's payload-absent half fails
on the code. -/
theorem C4_counterexample :
    (processDocumentForOCR false sampleOcr "t1" "d1"
        (baseState (some (mkDoc DocumentStatus.UPLOADED none)) none)).streams
      "dlq_ocr_failed" =
      [[("documentId", "d1"),
        ("error", "Original content not found for document: d1")]] := by
  decide

/-- C4 amended: when the referenced record is absent every handler logs and
returns with the state untouched — no write, no emission, no dead-letter; but
when the record exists and only the binary payload is absent, the OCR handler
treats it as an error: terminal status `OCR_FAILED` plus a dead-letter entry. -/
theorem C4_amended_notfound_behaviour (st : PipelineState)
    (documentId now : String) (ocr : OCRResult) :
    (st.docs documentId = none →
      processDocumentForOCR false ocr now documentId st = st ∧
      processDocumentForValidation false now documentId st = st ∧
      persistDocument false now documentId st = st) ∧
    (∀ d, st.docs documentId = some d → st.contents documentId = none →
      (processDocumentForOCR false ocr now documentId st).streams "dlq_ocr_failed" =
        st.streams "dlq_ocr_failed" ++
          [[("documentId", documentId),
            ("error", "Original content not found for document: " ++ documentId)]] ∧
      ((processDocumentForOCR false ocr now documentId st).docs documentId).map
        StoredDoc.status = some DocumentStatus.OCR_FAILED) := by
  constructor
  · intro hnone
    refine ⟨?_, ?_, ?_⟩ <;> simp [processDocumentForOCR, processDocumentForValidation,
      persistDocument, hnone]
  · intro d hdoc hc
    simp [processDocumentForOCR, hdoc, hc, hsetDoc, xadd, Function.update_same,
      Function.update_noteq]

/-- Witness for C4 amended: the record-absent half at a concrete empty store. -/
theorem C4_amended_notfound_behaviour_witness :
    processDocumentForOCR false sampleOcr "t1" "d1" (baseState none none) =
      baseState none none ∧
    processDocumentForValidation false "t1" "d1" (baseState none none) =
      baseState none none ∧
    persistDocument false "t1" "d1" (baseState none none) = baseState none none :=
  (C4_amended_notfound_behaviour (baseState none none) "d1" "t1" sampleOcr).1 rfl

/-- An OCR result fixture whose text yields no extractable field, so every
validation check fails. -/
def failOcr : OCRResult := { text := "x", confidence := 1, language := "en" }

/-- C5: when the validation handler reaches the checks, a failing outcome
records all failure messages on the record, sets `VALIDATION_FAILED`, and
emits an entry tagged `VALIDATION_FAILED` to `validation_queue` — never to
the dead-letter topic; a passing outcome sets `VALIDATED` and emits with tag
`VALIDATED`. -/
theorem C5_validation_outcome_routing (st : PipelineState) (documentId now : String)
    (d : StoredDoc) (ocr : OCRResult)
    (hdoc : st.docs documentId = some d) (ho : d.ocrResult = some ocr)
    (ht : ocr.text ≠ "") :
    (validateInvoiceMetadata (extractInvoiceMetadata ocr.text) ≠ [] →
      ((processDocumentForValidation false now documentId st).docs documentId).map
          StoredDoc.status = some DocumentStatus.VALIDATION_FAILED ∧
      ((processDocumentForValidation false now documentId st).docs documentId).bind
          StoredDoc.validationErrors =
        some (validateInvoiceMetadata (extractInvoiceMetadata ocr.text)) ∧
      (processDocumentForValidation false now documentId st).streams "validation_queue" =
        st.streams "validation_queue" ++
          [[("documentId", documentId), ("status", "VALIDATION_FAILED")]] ∧
      (processDocumentForValidation false now documentId st).streams
        "dlq_validation_failed" = st.streams "dlq_validation_failed") ∧
    (validateInvoiceMetadata (extractInvoiceMetadata ocr.text) = [] →
      ((processDocumentForValidation false now documentId st).docs documentId).map
          StoredDoc.status = some DocumentStatus.VALIDATED ∧
      (processDocumentForValidation false now documentId st).streams "validation_queue" =
        st.streams "validation_queue" ++
          [[("documentId", documentId), ("status", "VALIDATED")]] ∧
      (processDocumentForValidation false now documentId st).streams
        "dlq_validation_failed" = st.streams "dlq_validation_failed") := by
  constructor
  · intro herr
    have hlen : (validateInvoiceMetadata (extractInvoiceMetadata ocr.text)).length > 0 :=
      List.length_pos.mpr herr
    simp [processDocumentForValidation, hdoc, ho, ht, hlen, hsetDoc, xadd,
      Function.update_same, Function.update_noteq]
  · intro herr
    simp [processDocumentForValidation, hdoc, ho, ht, herr, hsetDoc, xadd,
      Function.update_same, Function.update_noteq]

/-- Witness for C5 at a concrete record whose recognized text fails every
check. -/
theorem C5_validation_outcome_routing_witness :
    ((processDocumentForValidation false "t1" "d1"
        (baseState (some (mkDoc DocumentStatus.OCR_COMPLETED (some failOcr))) none)).docs
          "d1").map StoredDoc.status = some DocumentStatus.VALIDATION_FAILED ∧
    ((processDocumentForValidation false "t1" "d1"
        (baseState (some (mkDoc DocumentStatus.OCR_COMPLETED (some failOcr))) none)).docs
          "d1").bind StoredDoc.validationErrors =
      some (validateInvoiceMetadata (extractInvoiceMetadata failOcr.text)) ∧
    (processDocumentForValidation false "t1" "d1"
        (baseState (some (mkDoc DocumentStatus.OCR_COMPLETED (some failOcr))) none)).streams
        "validation_queue" =
      (baseState (some (mkDoc DocumentStatus.OCR_COMPLETED (some failOcr))) none).streams
          "validation_queue" ++
        [[("documentId", "d1"), ("status", "VALIDATION_FAILED")]] ∧
    (processDocumentForValidation false "t1" "d1"
        (baseState (some (mkDoc DocumentStatus.OCR_COMPLETED (some failOcr))) none)).streams
        "dlq_validation_failed" =
      (baseState (some (mkDoc DocumentStatus.OCR_COMPLETED (some failOcr))) none).streams
        "dlq_validation_failed" :=
  (C5_validation_outcome_routing
    (baseState (some (mkDoc DocumentStatus.OCR_COMPLETED (some failOcr))) none)
    "d1" "t1" (mkDoc DocumentStatus.OCR_COMPLETED (some failOcr)) failOcr
    rfl rfl (by decide)).1 (by decide)

/-- C6: the persistence handler on an existing record branches strictly on
its current status: `VALIDATED` finalizes as `PERSISTED` and discards the
payload; `VALIDATION_FAILED` finalizes as `FAILED` without touching the
payload; any other status leaves the whole state unchanged. -/
theorem C6_persistence_branches_on_status (st : PipelineState)
    (documentId now : String) (d : StoredDoc)
    (hdoc : st.docs documentId = some d) :
    (d.status = DocumentStatus.VALIDATED →
      ((persistDocument false now documentId st).docs documentId).map StoredDoc.status =
        some DocumentStatus.PERSISTED ∧
      (persistDocument false now documentId st).contents documentId = none ∧
      (persistDocument false now documentId st).streams = st.streams) ∧
    (d.status = DocumentStatus.VALIDATION_FAILED →
      ((persistDocument false now documentId st).docs documentId).map StoredDoc.status =
        some DocumentStatus.FAILED ∧
      (persistDocument false now documentId st).contents = st.contents ∧
      (persistDocument false now documentId st).streams = st.streams) ∧
    (d.status ≠ DocumentStatus.VALIDATED →
      d.status ≠ DocumentStatus.VALIDATION_FAILED →
      persistDocument false now documentId st = st) := by
  refine ⟨?_, ?_, ?_⟩
  · intro hstat
    simp [persistDocument, hdoc, hstat, hsetDoc, Function.update_same]
  · intro hstat
    simp [persistDocument, hdoc, hstat, hsetDoc, Function.update_same]
  · intro h1 h2
    simp [persistDocument, hdoc, h1, h2]

/-- Witness for C6: the `VALIDATED` branch at a concrete record. -/
theorem C6_persistence_branches_on_status_witness :
    ((persistDocument false "t1" "d1"
        (baseState (some (mkDoc DocumentStatus.VALIDATED none)) (some "bytes"))).docs
          "d1").map StoredDoc.status = some DocumentStatus.PERSISTED ∧
    (persistDocument false "t1" "d1"
        (baseState (some (mkDoc DocumentStatus.VALIDATED none)) (some "bytes"))).contents
      "d1" = none ∧
    (persistDocument false "t1" "d1"
        (baseState (some (mkDoc DocumentStatus.VALIDATED none)) (some "bytes"))).streams =
      (baseState (some (mkDoc DocumentStatus.VALIDATED none)) (some "bytes")).streams :=
  (C6_persistence_branches_on_status
    (baseState (some (mkDoc DocumentStatus.VALIDATED none)) (some "bytes")) "d1" "t1"
    (mkDoc DocumentStatus.VALIDATED none) rfl).1 rfl

/-- C10: whenever the validation handler reaches the checks, the partially
extracted metadata is written to the record's extractedMetadata field on both
outcomes; on the failing outcome it sits alongside the validation errors. -/
theorem C10_extracted_metadata_stored_on_both_outcomes (st : PipelineState)
    (documentId now : String) (d : StoredDoc) (ocr : OCRResult)
    (hdoc : st.docs documentId = some d) (ho : d.ocrResult = some ocr)
    (ht : ocr.text ≠ "") :
    ((processDocumentForValidation false now documentId st).docs documentId).bind
        StoredDoc.extractedMetadata = some (extractInvoiceMetadata ocr.text) ∧
    (validateInvoiceMetadata (extractInvoiceMetadata ocr.text) ≠ [] →
      ((processDocumentForValidation false now documentId st).docs documentId).bind
        StoredDoc.validationErrors =
        some (validateInvoiceMetadata (extractInvoiceMetadata ocr.text))) := by
  constructor
  · by_cases herr :
        (validateInvoiceMetadata (extractInvoiceMetadata ocr.text)).length > 0
    · simp [processDocumentForValidation, hdoc, ho, ht, herr, hsetDoc, xadd,
        Function.update_same]
    · simp [processDocumentForValidation, hdoc, ho, ht, herr, hsetDoc, xadd,
        Function.update_same]
  · intro herr
    have hlen : (validateInvoiceMetadata (extractInvoiceMetadata ocr.text)).length > 0 :=
      List.length_pos.mpr herr
    simp [processDocumentForValidation, hdoc, ho, ht, hlen, hsetDoc, xadd,
      Function.update_same]

/-- Witness for C10 at a concrete record whose recognized text fails the
checks: the partial extraction is stored nonetheless. -/
theorem C10_extracted_metadata_stored_on_both_outcomes_witness :
    ((processDocumentForValidation false "t2" "d1"
        (baseState (some (mkDoc DocumentStatus.OCR_COMPLETED (some failOcr))) none)).docs
          "d1").bind StoredDoc.extractedMetadata =
      some (extractInvoiceMetadata failOcr.text) :=
  (C10_extracted_metadata_stored_on_both_outcomes
    (baseState (some (mkDoc DocumentStatus.OCR_COMPLETED (some failOcr))) none)
    "d1" "t2" (mkDoc DocumentStatus.OCR_COMPLETED (some failOcr)) failOcr
    rfl rfl (by decide)).1

end DocPipeline
